import Mathlib

/-!
Verification development for the Tab Limiter chrome extension
(`background.js`, `utils/tabManager.js`, `utils/windowManager.js`,
`utils/windowLimitAlert.js`, `utils/config.js`, `utils/logging.js`).
The Lean definitions are a shallow embedding of the decision logic of the
extension: which tabs and windows each enforcement pass selects for closure,
how the activity log evolves, and how configuration is resolved and saved.
-/

/-- Log entry categories used by `addLogEntry` (the JS strings
`info`, `warning`, `error`, `action`). -/
inductive LogType where
  | info
  | warning
  | error
  | action
deriving DecidableEq, Repr

/-- Window types as reported by `chrome.windows.getAll` (`normal` vs the
others such as `popup`); the extension only distinguishes `normal`. -/
inductive WinType where
  | normal
  | popup
deriving DecidableEq, Repr

/-- A browser tab, with the attributes the enforcement logic reads:
`id`, `pinned`, `active`. -/
structure Tab where
  id : Nat
  pinned : Bool
  active : Bool
deriving DecidableEq, Repr

/-- A browser window, with the attributes the enforcement logic reads:
`id`, `focused`, `wtype` (the JS `type` field). -/
structure Window where
  id : Nat
  focused : Bool
  wtype : WinType
deriving DecidableEq, Repr

/-- The effective configuration record (the JS `DEFAULT_CONFIG` shape). -/
structure Config where
  enabled : Bool
  tabLimit : Nat
  windowLimit : Nat
  autoClose : Bool
  autoCloseWindows : Bool
  windowGracePeriod : Nat
  notifications : Bool
  pauseBetweenClosures : Nat
  adminRole : Bool
deriving DecidableEq, Repr

/-- `DEFAULT_CONFIG` from `background.js`. -/
def DEFAULT_CONFIG : Config where
  enabled := true
  tabLimit := 5
  windowLimit := 3
  autoClose := true
  autoCloseWindows := true
  windowGracePeriod := 20000
  notifications := true
  pauseBetweenClosures := 1000
  adminRole := false

/-- Descending-id order on tabs: the JS comparator `(a, b) => b.id - a.id`
places `a` before `b` exactly when `b.id ≤ a.id`. -/
def tabDescOrder (a b : Tab) : Prop := b.id ≤ a.id

instance : DecidableRel tabDescOrder := fun a b =>
  inferInstanceAs (Decidable (b.id ≤ a.id))

instance : IsTotal Tab tabDescOrder :=
  ⟨fun a b => (Nat.le_total b.id a.id)⟩

instance : IsTrans Tab tabDescOrder :=
  ⟨fun _ _ _ hab hbc => Nat.le_trans hbc hab⟩

/-- `tabs.sort((a, b) => b.id - a.id)`: sort tabs by descending id. -/
def sortTabsDesc (tabs : List Tab) : List Tab :=
  List.insertionSort tabDescOrder tabs

/-- Descending-id order on windows, for `(a, b) => b.id - a.id`. -/
def winDescOrder (a b : Window) : Prop := b.id ≤ a.id

instance : DecidableRel winDescOrder := fun a b =>
  inferInstanceAs (Decidable (b.id ≤ a.id))

instance : IsTotal Window winDescOrder :=
  ⟨fun a b => (Nat.le_total b.id a.id)⟩

instance : IsTrans Window winDescOrder :=
  ⟨fun _ _ _ hab hbc => Nat.le_trans hbc hab⟩

/-- Sort windows by descending id. -/
def sortWindowsDesc (ws : List Window) : List Window :=
  List.insertionSort winDescOrder ws

/-- The ordered close-candidate list that `enforceTabLimit`
(`background.js` lines 218-234, identically `utils/tabManager.js`) builds
from the window's tabs and the optional id of the just-created tab:
if `newTabId` is supplied, the tab found under that id goes first unless it
is pinned, followed by the other non-pinned tabs sorted newest-first;
otherwise all non-pinned tabs sorted newest-first. -/
def closableTabs (tabs : List Tab) (newTabId : Option Nat) : List Tab :=
  match newTabId with
  | some nid =>
    let newTab := tabs.find? (fun t => t.id == nid)
    let otherTabs := sortTabsDesc (tabs.filter (fun t => t.id != nid && !t.pinned))
    match newTab with
    | some nt => if !nt.pinned then nt :: otherTabs else otherTabs
    | none => otherTabs
  | none => sortTabsDesc (tabs.filter (fun t => !t.pinned))

/-- The tabs that one `enforceTabLimit` pass removes
(`background.js` lines 186-260): nothing when disabled or within the limit,
otherwise the first `excess` entries of the candidate list. -/
def enforceTabLimitCloses (config : Config) (tabs : List Tab)
    (newTabId : Option Nat) : List Tab :=
  if !config.enabled || !config.autoClose then []
  else if tabs.length ≤ config.tabLimit then []
  else (closableTabs tabs newTabId).take (tabs.length - config.tabLimit)

/-- An unpinned, inactive tab with the given id, as in the spec scenarios. -/
def mkTab (n : Nat) : Tab where
  id := n
  pinned := false
  active := false

/-- Eight tabs with ids 1..8, none pinned (the spec's tab scenario). -/
def tabs8 : List Tab :=
  [mkTab 1, mkTab 2, mkTab 3, mkTab 4, mkTab 5, mkTab 6, mkTab 7, mkTab 8]

example : enforceTabLimitCloses DEFAULT_CONFIG tabs8 (some 8)
    = [mkTab 8, mkTab 7, mkTab 6] := by decide

example : tabs8.filter (fun t => !(enforceTabLimitCloses DEFAULT_CONFIG tabs8 (some 8)).contains t)
    = [mkTab 1, mkTab 2, mkTab 3, mkTab 4, mkTab 5] := by decide

/-- The windows that one `enforceWindowLimit` pass removes
(`background.js` lines 273-354, same selection logic in
`utils/windowManager.js`): nothing when disabled or within the limit,
otherwise up to `excess` non-focused normal windows, newest-first. -/
def enforceWindowLimitCloses (config : Config) (allWindows : List Window) :
    List Window :=
  if !config.enabled || !config.autoCloseWindows then []
  else
    let windows := allWindows.filter (fun w => w.wtype == WinType.normal)
    if windows.length ≤ config.windowLimit then []
    else
      let excessCount := windows.length - config.windowLimit
      let closableWindows :=
        sortWindowsDesc (windows.filter
          (fun w => !w.focused && w.wtype == WinType.normal))
      closableWindows.take (min excessCount closableWindows.length)

/-- Effect of the grace-period timer callback `closeSpecificWindowAfterGrace`
(`background.js` lines 359-445) on a given live window list: the first
component is the window it removes (if any), the second whether it deleted
the `recentWindows` / `windowTimeouts` tracking entries for the target id. -/
def closeSpecificWindowAfterGrace (config : Config) (allWindows : List Window)
    (targetWindowId : Nat) : Option Window × Bool :=
  if !config.enabled || !config.autoCloseWindows then (none, false)
  else
    match allWindows.find?
        (fun w => w.id == targetWindowId && w.wtype == WinType.normal) with
    | none => (none, true)
    | some targetWindow =>
      let windowCount :=
        (allWindows.filter (fun w => w.wtype == WinType.normal)).length
      if windowCount ≤ config.windowLimit then (none, true)
      else if targetWindow.focused then (none, true)
      else (some targetWindow, true)

/-- Effect of `handleWindowCloseConfirmation` in `utils/windowLimitAlert.js`
(the `closeWindowConfirmed` command path): it looks up the window with
`chrome.windows.get(windowId)` and, when the lookup succeeds, removes that
window; the `confirmed` flag is never consulted. Returns the window removed,
if any. -/
def handleWindowCloseConfirmation (allWindows : List Window) (windowId : Nat)
    (confirmed : Bool) : Option Window :=
  allWindows.find? (fun w => w.id == windowId)

/-- The windows that `initializeExtension` (`background.js` lines 32-46)
removes: it returns early when disabled; otherwise it updates the badge,
runs `enforceWindowLimit()`, and logs the startup entry. -/
def initializeExtensionCloses (config : Config) (allWindows : List Window) :
    List Window :=
  if !config.enabled then []
  else enforceWindowLimitCloses config allWindows

/-- An activity log entry (`addLogEntry` in `background.js` /
`utils/logging.js`): timestamp, message, type, optional window id.
The message is modelled by an opaque numeric code. -/
structure LogEntry where
  timestamp : Nat
  message : Nat
  ltype : LogType
  windowId : Option Nat
deriving DecidableEq, Repr

/-- `MAX_LOG_ENTRIES` from `background.js` / `utils/logging.js`. -/
def MAX_LOG_ENTRIES : Nat := 50

/-- `addLogEntry` (`background.js` lines 82-99): `unshift` the entry, then
truncate with `slice(0, MAX_LOG_ENTRIES)` when the length exceeds the max. -/
def addLogEntry (activityLog : List LogEntry) (entry : LogEntry) :
    List LogEntry :=
  let log := entry :: activityLog
  if MAX_LOG_ENTRIES < log.length then log.take MAX_LOG_ENTRIES
  else log

/-- The record held in `chrome.storage.sync`: any subset of the
configuration keys may be present. `chrome.storage.sync.get(DEFAULT_CONFIG)`
fills each missing key with its default. -/
structure StoredSync where
  enabled : Option Bool
  tabLimit : Option Nat
  windowLimit : Option Nat
  autoClose : Option Bool
  autoCloseWindows : Option Bool
  windowGracePeriod : Option Nat
  notifications : Option Bool
  pauseBetweenClosures : Option Nat
  adminRole : Option Bool
deriving DecidableEq, Repr

/-- `getConfig` (`background.js` lines 51-65, identically `utils/config.js`):
spread `DEFAULT_CONFIG`, then the stored record, then force
`adminRole: DEFAULT_CONFIG.adminRole`. -/
def getConfig (stored : StoredSync) : Config where
  enabled := stored.enabled.getD DEFAULT_CONFIG.enabled
  tabLimit := stored.tabLimit.getD DEFAULT_CONFIG.tabLimit
  windowLimit := stored.windowLimit.getD DEFAULT_CONFIG.windowLimit
  autoClose := stored.autoClose.getD DEFAULT_CONFIG.autoClose
  autoCloseWindows := stored.autoCloseWindows.getD DEFAULT_CONFIG.autoCloseWindows
  windowGracePeriod := stored.windowGracePeriod.getD DEFAULT_CONFIG.windowGracePeriod
  notifications := stored.notifications.getD DEFAULT_CONFIG.notifications
  pauseBetweenClosures := stored.pauseBetweenClosures.getD DEFAULT_CONFIG.pauseBetweenClosures
  adminRole := DEFAULT_CONFIG.adminRole

/-- The centrally-administered (managed storage) record of the enterprise
variant: the keys of its `schema.json`, each optionally set. -/
structure ManagedConfig where
  tabLimit : Option Nat
  windowLimit : Option Nat
  allowUserConfig : Option Bool
  enforceSettings : Option Bool
  autoClose : Option Bool
  autoCloseWindows : Option Bool
  windowGracePeriod : Option Nat
  notifications : Option Bool
deriving DecidableEq, Repr

/-- `Object.keys(enterpriseConfig).length > 0` is false exactly when no
managed key is set. -/
def ManagedConfig.isEmpty (m : ManagedConfig) : Bool :=
  m.tabLimit.isNone && m.windowLimit.isNone && m.allowUserConfig.isNone &&
  m.enforceSettings.isNone && m.autoClose.isNone && m.autoCloseWindows.isNone &&
  m.windowGracePeriod.isNone && m.notifications.isNone

/-- Apply every key present in the administered record on top of a
configuration (the `forEach` overwrite loop of the enterprise variant). -/
def applyManaged (m : ManagedConfig) (c : Config) : Config where
  enabled := c.enabled
  tabLimit := m.tabLimit.getD c.tabLimit
  windowLimit := m.windowLimit.getD c.windowLimit
  autoClose := m.autoClose.getD c.autoClose
  autoCloseWindows := m.autoCloseWindows.getD c.autoCloseWindows
  windowGracePeriod := m.windowGracePeriod.getD c.windowGracePeriod
  notifications := m.notifications.getD c.notifications
  pauseBetweenClosures := c.pauseBetweenClosures
  adminRole := c.adminRole

/-- The effective configuration of the enterprise variant: base fields plus
the derived management flags. -/
structure EffectiveConfig where
  base : Config
  isManaged : Bool
  allowUserConfig : Bool
  enforceSettings : Bool
deriving DecidableEq, Repr

/-- `getEffectiveConfig` of the enterprise variant: defaults plus the user
record (already total after `storage.sync.get(DEFAULT_CONFIG)`), enterprise
keys overriding, and the derived flags `isManaged`,
`allowUserConfig !== false`, `enforceSettings === true`. -/
def getEffectiveConfig (enterprise : ManagedConfig) (userConfig : Config) :
    EffectiveConfig :=
  if !enterprise.isEmpty then
    { base := applyManaged enterprise userConfig
      isManaged := true
      allowUserConfig := !(enterprise.allowUserConfig == some false)
      enforceSettings := enterprise.enforceSettings == some true }
  else
    { base := userConfig
      isManaged := false
      allowUserConfig := true
      enforceSettings := false }

/-- `saveConfig` of the enterprise variant: blocked (returns `false`, stored
record untouched) when managed and enforcement-locked; when managed and user
configuration is disallowed, administered keys overwrite the request before
persisting; returns `true` with the new stored record otherwise. -/
def saveConfig (enterprise : ManagedConfig) (stored : Config)
    (requested : Config) : Bool × Config :=
  let currentConfig := getEffectiveConfig enterprise stored
  if currentConfig.isManaged && currentConfig.enforceSettings then
    (false, stored)
  else
    let toStore :=
      if currentConfig.isManaged && !currentConfig.allowUserConfig then
        applyManaged enterprise requested
      else requested
    (true, toStore)

/-- A normal window with the given id and focus flag, for concrete
scenarios. -/
def mkWin (n : Nat) (f : Bool) : Window where
  id := n
  focused := f
  wtype := WinType.normal

/-- Four normal windows, window 1 focused (the spec's window scenario with
`windowLimit = 3`). -/
def wins4 : List Window :=
  [mkWin 1 true, mkWin 2 false, mkWin 3 false, mkWin 4 false]

example : enforceWindowLimitCloses DEFAULT_CONFIG wins4 = [mkWin 4 false] := by decide

example : initializeExtensionCloses DEFAULT_CONFIG wins4 = [mkWin 4 false] := by decide

example : handleWindowCloseConfirmation [mkWin 42 true] 42 false
    = some (mkWin 42 true) := by decide

example : closeSpecificWindowAfterGrace DEFAULT_CONFIG wins4 4
    = (some (mkWin 4 false), true) := by decide

example :
    closeSpecificWindowAfterGrace
      { DEFAULT_CONFIG with enabled := false } wins4 4 = (none, false) := by decide

/-- The close-list shape the spec claims when a just-created, unpinned tab
is known: that tab first, then exactly the other non-pinned tabs in
descending id order. -/
def SpecCloseOrder (tabs : List Tab) (nid : Nat) (nt : Tab)
    (closeList : List Tab) : Prop :=
  ∃ rest, closeList = nt :: rest ∧
    List.Pairwise (fun a b => b.id ≤ a.id) rest ∧
    ∀ t, t ∈ rest ↔ (t ∈ tabs ∧ t.pinned = false ∧ t.id ≠ nid)

theorem mem_sortTabsDesc {l : List Tab} {t : Tab} :
    t ∈ sortTabsDesc l ↔ t ∈ l :=
  (List.perm_insertionSort tabDescOrder l).mem_iff

theorem length_sortTabsDesc (l : List Tab) :
    (sortTabsDesc l).length = l.length :=
  (List.perm_insertionSort tabDescOrder l).length_eq

theorem pairwise_sortTabsDesc (l : List Tab) :
    List.Pairwise (fun a b => b.id ≤ a.id) (sortTabsDesc l) :=
  List.sorted_insertionSort tabDescOrder l

theorem mem_sortWindowsDesc {l : List Window} {w : Window} :
    w ∈ sortWindowsDesc l ↔ w ∈ l :=
  (List.perm_insertionSort winDescOrder l).mem_iff

theorem find_tab_by_id {tabs : List Tab} {nt : Tab} {nid : Nat}
    (hnodup : (tabs.map Tab.id).Nodup) (hmem : nt ∈ tabs) (hid : nt.id = nid) :
    tabs.find? (fun t => t.id == nid) = some nt := by
  induction tabs with
  | nil => cases hmem
  | cons h rest ih =>
    simp only [List.map_cons, List.nodup_cons] at hnodup
    rcases List.mem_cons.mp hmem with rfl | hmem'
    · exact List.find?_cons_of_pos rest (beq_iff_eq.mpr hid)
    · have hne : ¬(h.id = nid) := by
        intro heq
        apply hnodup.1
        rw [heq, ← hid]
        exact List.mem_map_of_mem Tab.id hmem'
      rw [List.find?_cons_of_neg rest (by simpa using hne)]
      exact ih hnodup.2 hmem'

theorem filter_erase_new_id_of_none {tabs : List Tab} {nid : Nat}
    (hnone : ∀ t ∈ tabs, ¬(t.id = nid)) :
    tabs.filter (fun t => t.id != nid && !t.pinned)
      = tabs.filter (fun t => !t.pinned) := by
  apply List.filter_congr
  intro t ht
  have : (t.id != nid) = true := by simpa using hnone t ht
  simp [this]

theorem filter_erase_new_id_of_pinned {tabs : List Tab} {nt : Tab} {nid : Nat}
    (hnodup : (tabs.map Tab.id).Nodup)
    (hfind : tabs.find? (fun t => t.id == nid) = some nt)
    (hpin : nt.pinned = true) :
    tabs.filter (fun t => t.id != nid && !t.pinned)
      = tabs.filter (fun t => !t.pinned) := by
  have hntmem : nt ∈ tabs := List.mem_of_find?_eq_some hfind
  have hntid : nt.id = nid := by simpa using List.find?_some hfind
  apply List.filter_congr
  intro t ht
  by_cases hid : t.id = nid
  · have : t = nt := List.inj_on_of_nodup_map hnodup ht hntmem (by rw [hid, hntid])
    subst this
    simp [hpin]
  · have : (t.id != nid) = true := by simpa using hid
    simp [this]

theorem length_filter_unpinned_split {tabs : List Tab} {nt : Tab} {nid : Nat}
    (hnodup : (tabs.map Tab.id).Nodup)
    (hfind : tabs.find? (fun t => t.id == nid) = some nt)
    (hpin : nt.pinned = false) :
    (tabs.filter (fun t => !t.pinned)).length
      = (tabs.filter (fun t => t.id != nid && !t.pinned)).length + 1 := by
  induction tabs with
  | nil => simp at hfind
  | cons h rest ih =>
    simp only [List.map_cons, List.nodup_cons] at hnodup
    by_cases hh : h.id = nid
    · have hfind' : List.find? (fun t => t.id == nid) (h :: rest) = some h :=
        List.find?_cons_of_pos rest (beq_iff_eq.mpr hh)
      rw [hfind'] at hfind
      injection hfind with hfh
      subst hfh
      have hrest : rest.filter (fun t => t.id != nid && !t.pinned)
          = rest.filter (fun t => !t.pinned) := by
        apply filter_erase_new_id_of_none
        intro t ht heq
        apply hnodup.1
        rw [hh, ← heq]
        exact List.mem_map_of_mem Tab.id ht
      have hne : (h.id != nid) = false := by simpa using hh
      simp [List.filter_cons, hpin, hne, hrest, hh]
    · have hfind' : List.find? (fun t => t.id == nid) (h :: rest)
          = List.find? (fun t => t.id == nid) rest :=
        List.find?_cons_of_neg rest (by simpa using hh)
      rw [hfind'] at hfind
      have hne : (h.id != nid) = true := by simpa using hh
      by_cases hp : h.pinned
      · simp [List.filter_cons, hp, ih hnodup.2 hfind]
      · have hp' : h.pinned = false := by simpa using hp
        simp [List.filter_cons, hp', hne, ih hnodup.2 hfind]

theorem closableTabs_eq_cons {tabs : List Tab} {nt : Tab} {nid : Nat}
    (hfind : tabs.find? (fun t => t.id == nid) = some nt)
    (hpin : nt.pinned = false) :
    closableTabs tabs (some nid)
      = nt :: sortTabsDesc (tabs.filter (fun t => t.id != nid && !t.pinned)) := by
  simp [closableTabs, hfind, hpin]

theorem closableTabs_eq_of_pinned {tabs : List Tab} {nt : Tab} {nid : Nat}
    (hfind : tabs.find? (fun t => t.id == nid) = some nt)
    (hpin : nt.pinned = true) :
    closableTabs tabs (some nid)
      = sortTabsDesc (tabs.filter (fun t => t.id != nid && !t.pinned)) := by
  simp [closableTabs, hfind, hpin]

theorem closableTabs_eq_of_not_found {tabs : List Tab} {nid : Nat}
    (hfind : tabs.find? (fun t => t.id == nid) = none) :
    closableTabs tabs (some nid)
      = sortTabsDesc (tabs.filter (fun t => t.id != nid && !t.pinned)) := by
  simp [closableTabs, hfind]

theorem closableTabs_unpinned {tabs : List Tab} {newTabId : Option Nat}
    {t : Tab} (hmem : t ∈ closableTabs tabs newTabId) : t.pinned = false := by
  match newTabId with
  | none =>
    rw [closableTabs, mem_sortTabsDesc, List.mem_filter] at hmem
    simpa using hmem.2
  | some nid =>
    cases hfind : tabs.find? (fun t => t.id == nid) with
    | none =>
      rw [closableTabs_eq_of_not_found hfind, mem_sortTabsDesc,
        List.mem_filter] at hmem
      have := hmem.2
      simp only [Bool.and_eq_true, Bool.not_eq_true'] at this
      exact this.2
    | some nt =>
      by_cases hpin : nt.pinned = true
      · rw [closableTabs_eq_of_pinned hfind hpin, mem_sortTabsDesc,
          List.mem_filter] at hmem
        have := hmem.2
        simp only [Bool.and_eq_true, Bool.not_eq_true'] at this
        exact this.2
      · have hpin' : nt.pinned = false := by
          revert hpin
          cases nt.pinned <;> simp
        rw [closableTabs_eq_cons hfind hpin', List.mem_cons] at hmem
        rcases hmem with rfl | hmem'
        · exact hpin'
        · rw [mem_sortTabsDesc, List.mem_filter] at hmem'
          have := hmem'.2
          simp only [Bool.and_eq_true, Bool.not_eq_true'] at this
          exact this.2

theorem length_closableTabs (tabs : List Tab) (newTabId : Option Nat)
    (hnodup : (tabs.map Tab.id).Nodup) :
    (closableTabs tabs newTabId).length
      = (tabs.filter (fun t => !t.pinned)).length := by
  match newTabId with
  | none => simp [closableTabs, length_sortTabsDesc]
  | some nid =>
    simp only [closableTabs]
    cases hfind : tabs.find? (fun t => t.id == nid) with
    | none =>
      have hnone : ∀ t ∈ tabs, ¬(t.id = nid) := by
        intro t ht
        have := List.find?_eq_none.mp hfind t ht
        simpa using this
      simp [length_sortTabsDesc, filter_erase_new_id_of_none hnone]
    | some nt =>
      by_cases hpin : nt.pinned
      · simp [hpin, length_sortTabsDesc,
          filter_erase_new_id_of_pinned hnodup hfind hpin]
      · have hpin' : nt.pinned = false := by simpa using hpin
        simp only [hpin', Bool.not_false, if_true, List.length_cons,
          length_sortTabsDesc]
        rw [length_filter_unpinned_split hnodup hfind hpin']


/-- C1: when the tab count exceeds `tabLimit` and a `newlyCreatedTabId` is
supplied whose tab exists and is not pinned, the enforcement pass closes the
first `excess` entries of a close list that has exactly that tab first,
followed by the remaining non-pinned tabs sorted by descending id; in
particular with `tabLimit = 5`, tabs 1..8 (none pinned) and
`newlyCreatedTabId = 8`, exactly tabs 8, 7, 6 are closed and 1..5 remain. -/
theorem new_tab_closed_first (config : Config) (tabs : List Tab) (nt : Tab)
    (nid : Nat) (hnodup : (tabs.map Tab.id).Nodup) (hmem : nt ∈ tabs)
    (hid : nt.id = nid) (hpin : nt.pinned = false)
    (hen : config.enabled = true) (hac : config.autoClose = true)
    (hover : config.tabLimit < tabs.length) :
    SpecCloseOrder tabs nid nt (closableTabs tabs (some nid)) ∧
    enforceTabLimitCloses config tabs (some nid)
      = (closableTabs tabs (some nid)).take (tabs.length - config.tabLimit) ∧
    enforceTabLimitCloses DEFAULT_CONFIG tabs8 (some 8)
      = [mkTab 8, mkTab 7, mkTab 6] ∧
    tabs8.filter
      (fun t => !(enforceTabLimitCloses DEFAULT_CONFIG tabs8 (some 8)).contains t)
      = [mkTab 1, mkTab 2, mkTab 3, mkTab 4, mkTab 5] := by
  refine ⟨?_, ?_, by decide, by decide⟩
  · have hfind := find_tab_by_id hnodup hmem hid
    refine ⟨sortTabsDesc (tabs.filter (fun t => t.id != nid && !t.pinned)),
      closableTabs_eq_cons hfind hpin, pairwise_sortTabsDesc _, ?_⟩
    intro t
    rw [mem_sortTabsDesc, List.mem_filter]
    simp only [Bool.and_eq_true, Bool.not_eq_true', bne_iff_ne]
    tauto
  · simp [enforceTabLimitCloses, hen, hac, Nat.not_le.mpr hover]

/-- Witness for C1: the spec scenario itself (tabs 1..8, new tab 8,
default limit 5) satisfies every hypothesis. -/
theorem new_tab_closed_first_witness :
    (mkTab 8).pinned = false ∧
    SpecCloseOrder tabs8 8 (mkTab 8) (closableTabs tabs8 (some 8)) :=
  ⟨rfl, (new_tab_closed_first DEFAULT_CONFIG tabs8 (mkTab 8) 8 (by decide)
    (by decide) rfl rfl rfl rfl (by decide)).1⟩

/-- C2: one enforcement pass on a window with `N > tabLimit` tabs closes
exactly `min (N - tabLimit)` and the number of non-pinned candidate tabs —
never more, never fewer when enough candidates exist, and only the available
candidates when most tabs are pinned. -/
theorem tab_enforcement_closes_min (config : Config) (tabs : List Tab)
    (newTabId : Option Nat) (hen : config.enabled = true)
    (hac : config.autoClose = true) (hnodup : (tabs.map Tab.id).Nodup)
    (hover : config.tabLimit < tabs.length) :
    (enforceTabLimitCloses config tabs newTabId).length
      = min (tabs.length - config.tabLimit)
          (tabs.filter (fun t => !t.pinned)).length := by
  simp [enforceTabLimitCloses, hen, hac, Nat.not_le.mpr hover,
    List.length_take, length_closableTabs tabs newTabId hnodup]

/-- Eight tabs where tabs 1..6 are pinned: only two close candidates exist
although the excess is three. -/
def tabsMostlyPinned : List Tab :=
  [⟨1, true, false⟩, ⟨2, true, false⟩, ⟨3, true, false⟩, ⟨4, true, false⟩,
   ⟨5, true, false⟩, ⟨6, true, false⟩, mkTab 7, mkTab 8]

/-- Witness for C2 at a concrete input with fewer candidates than excess. -/
theorem tab_enforcement_closes_min_witness :
    DEFAULT_CONFIG.tabLimit < tabsMostlyPinned.length ∧
    (enforceTabLimitCloses DEFAULT_CONFIG tabsMostlyPinned (some 8)).length
      = min (tabsMostlyPinned.length - DEFAULT_CONFIG.tabLimit)
          (tabsMostlyPinned.filter (fun t => !t.pinned)).length :=
  ⟨by decide, tab_enforcement_closes_min DEFAULT_CONFIG tabsMostlyPinned
    (some 8) rfl rfl (by decide) (by decide)⟩

/-- C3: for every configuration, tab list and optional new-tab id, no pinned
tab is ever selected for closure by the tab-limit enforcement pass. -/
theorem pinned_never_closed (config : Config) (tabs : List Tab)
    (newTabId : Option Nat) (t : Tab)
    (hmem : t ∈ enforceTabLimitCloses config tabs newTabId) :
    t.pinned = false := by
  simp only [enforceTabLimitCloses] at hmem
  split at hmem
  · cases hmem
  · split at hmem
    · cases hmem
    · exact closableTabs_unpinned (List.take_subset _ _ hmem)

/-- Witness for C3: tab 8 is selected for closure in the spec scenario and
is indeed not pinned. -/
theorem pinned_never_closed_witness :
    mkTab 8 ∈ enforceTabLimitCloses DEFAULT_CONFIG tabs8 (some 8) ∧
    (mkTab 8).pinned = false :=
  ⟨by decide,
    pinned_never_closed DEFAULT_CONFIG tabs8 (some 8) (mkTab 8) (by decide)⟩

theorem enforceWindowLimitCloses_not_focused {config : Config}
    {allWindows : List Window} {w : Window}
    (hmem : w ∈ enforceWindowLimitCloses config allWindows) :
    w.focused = false := by
  simp only [enforceWindowLimitCloses] at hmem
  split at hmem
  · cases hmem
  · split at hmem
    · cases hmem
    · have h1 := List.take_subset _ _ hmem
      rw [mem_sortWindowsDesc, List.mem_filter] at h1
      have := h1.2
      simp only [Bool.and_eq_true, Bool.not_eq_true'] at this
      exact this.1

theorem grace_close_characterized {config : Config} {allWindows : List Window}
    {tid : Nat} {w : Window}
    (hclose : (closeSpecificWindowAfterGrace config allWindows tid).1 = some w) :
    config.enabled = true ∧ config.autoCloseWindows = true ∧
    w ∈ allWindows ∧ w.id = tid ∧ w.wtype = WinType.normal ∧
    w.focused = false ∧
    config.windowLimit
      < (allWindows.filter (fun x => x.wtype == WinType.normal)).length := by
  simp only [closeSpecificWindowAfterGrace] at hclose
  split at hclose
  · exact absurd hclose (by simp)
  · rename_i hguard
    split at hclose
    · exact absurd hclose (by simp)
    · rename_i tw hfind
      split at hclose
      · exact absurd hclose (by simp)
      · rename_i hcnt
        split at hclose
        · exact absurd hclose (by simp)
        · rename_i hfoc
          have htw : tw = w := by simpa using hclose
          subst htw
          have hga : config.enabled = true ∧ config.autoCloseWindows = true := by
            revert hguard
            cases config.enabled <;> cases config.autoCloseWindows <;> simp
          have hp := List.find?_some hfind
          simp only [Bool.and_eq_true, beq_iff_eq] at hp
          have hfoc' : tw.focused = false := by
            revert hfoc
            cases tw.focused <;> simp
          exact ⟨hga.1, hga.2, List.mem_of_find?_eq_some hfind, hp.1, hp.2,
            hfoc', Nat.not_le.mp hcnt⟩

/-- C4 counterexample: the warning-confirmation path
(`handleWindowCloseConfirmation`, reached by the `closeWindowConfirmed`
command) closes window 42 even though window 42 is the currently focused
window, so the focused window is not protected under every strategy. -/
theorem focused_window_closed_by_confirmation :
    handleWindowCloseConfirmation [mkWin 42 true] 42 false
      = some (mkWin 42 true) ∧ (mkWin 42 true).focused = true :=
  ⟨by decide, rfl⟩

/-- C4 amended: under the immediate window-limit strategy and the
grace-period timer callback the currently focused window is never selected
for closure; the interactive warning-confirmation path, however, closes its
target window regardless of focus. -/
theorem focused_never_closed_amended :
    (∀ (config : Config) (allWindows : List Window) (w : Window),
        w ∈ enforceWindowLimitCloses config allWindows → w.focused = false) ∧
    (∀ (config : Config) (allWindows : List Window) (tid : Nat) (w : Window),
        (closeSpecificWindowAfterGrace config allWindows tid).1 = some w →
        w.focused = false) := by
  constructor
  · intro config allWindows w hmem
    exact enforceWindowLimitCloses_not_focused hmem
  · intro config allWindows tid w hclose
    exact (grace_close_characterized hclose).2.2.2.2.2.1

/-- Witness for C4 amended: the concrete four-window scenario exercises both
conjuncts: window 4 is selected by each path and is indeed unfocused. -/
theorem focused_never_closed_witness :
    (mkWin 4 false ∈ enforceWindowLimitCloses DEFAULT_CONFIG wins4 ∧
      (mkWin 4 false).focused = false) ∧
    ((closeSpecificWindowAfterGrace DEFAULT_CONFIG wins4 4).1
        = some (mkWin 4 false) ∧
      (mkWin 4 false).focused = false) :=
  ⟨⟨by decide,
    focused_never_closed_amended.1 DEFAULT_CONFIG wins4 (mkWin 4 false)
      (by decide)⟩,
   ⟨by decide,
    focused_never_closed_amended.2 DEFAULT_CONFIG wins4 4 (mkWin 4 false)
      (by decide)⟩⟩

/-- C5 counterexample: with the default configuration (which is enabled and
auto-closes windows) and four normal windows of which window 1 is focused,
`initializeExtension` closes window 4 — initialization does run window-limit
enforcement and can close a window. -/
theorem initialization_closes_a_window :
    initializeExtensionCloses DEFAULT_CONFIG wins4 = [mkWin 4 false] ∧
    DEFAULT_CONFIG.enabled = true :=
  ⟨by decide, rfl⟩

/-- C5 amended: the initialize handler refreshes the badge and logs startup
but additionally runs window-limit enforcement: it closes nothing when the
normal-window count is within `windowLimit`, only ever closes unfocused
windows, and does close an excess window in the concrete over-limit
scenario. -/
theorem initialization_runs_window_enforcement :
    (∀ (config : Config) (allWindows : List Window),
        (allWindows.filter (fun w => w.wtype == WinType.normal)).length
            ≤ config.windowLimit →
        initializeExtensionCloses config allWindows = []) ∧
    (∀ (config : Config) (allWindows : List Window) (w : Window),
        w ∈ initializeExtensionCloses config allWindows → w.focused = false) ∧
    initializeExtensionCloses DEFAULT_CONFIG wins4 = [mkWin 4 false] := by
  refine ⟨?_, ?_, by decide⟩
  · intro config allWindows hle
    simp only [initializeExtensionCloses, enforceWindowLimitCloses]
    by_cases he : (!config.enabled) = true
    · rw [if_pos he]
    · rw [if_neg he]
      by_cases hg : (!config.enabled || !config.autoCloseWindows) = true
      · rw [if_pos hg]
      · rw [if_neg hg, if_pos hle]
  · intro config allWindows w hmem
    simp only [initializeExtensionCloses] at hmem
    split at hmem
    · cases hmem
    · exact enforceWindowLimitCloses_not_focused hmem

/-- Witness for C5 amended: one focused normal window is within the default
limit, so initialization closes nothing. -/
theorem initialization_within_limit_witness :
    ([mkWin 1 true].filter (fun w => w.wtype == WinType.normal)).length
        ≤ DEFAULT_CONFIG.windowLimit ∧
    initializeExtensionCloses DEFAULT_CONFIG [mkWin 1 true] = [] :=
  ⟨by decide,
    initialization_runs_window_enforcement.1 DEFAULT_CONFIG [mkWin 1 true]
      (by decide)⟩

theorem addLogEntry_eq_take (activityLog : List LogEntry) (entry : LogEntry) :
    addLogEntry activityLog entry
      = (entry :: activityLog).take MAX_LOG_ENTRIES := by
  simp only [addLogEntry]
  split
  · rfl
  · rename_i hlen
    rw [List.take_of_length_le]
    omega

theorem foldl_addLogEntry (entries : List LogEntry) :
    ∀ activityLog : List LogEntry,
      List.foldl addLogEntry (activityLog.take MAX_LOG_ENTRIES) entries
        = (entries.reverse ++ activityLog).take MAX_LOG_ENTRIES := by
  induction entries with
  | nil =>
    intro l
    simp
  | cons e es ih =>
    intro l
    rw [List.foldl_cons, addLogEntry_eq_take]
    have h1 : (e :: List.take MAX_LOG_ENTRIES l).take MAX_LOG_ENTRIES
        = (e :: l).take MAX_LOG_ENTRIES := by
      have h50 : MAX_LOG_ENTRIES = 49 + 1 := rfl
      rw [h50, List.take_succ_cons, List.take_succ_cons, List.take_take]
      norm_num
    rw [h1, ih (e :: l)]
    simp [List.append_assoc]

/-- C6: starting from the empty log, after any sequence of `addLogEntry`
appends the activity log holds the `MAX_LOG_ENTRIES` (50) most recent
entries in newest-first order — it never exceeds the maximum and the oldest
entries are the ones dropped. -/
theorem activity_log_bounded_fifo (entries : List LogEntry) :
    (List.foldl addLogEntry [] entries).length ≤ MAX_LOG_ENTRIES ∧
    List.foldl addLogEntry [] entries
      = entries.reverse.take MAX_LOG_ENTRIES := by
  have h := foldl_addLogEntry entries []
  rw [List.take_nil, List.append_nil] at h
  constructor
  · rw [h]
    exact List.length_take_le _ _
  · exact h

/-- C7: whenever the effective configuration is managed and
enforcement-locked, `saveConfig` reports failure and leaves the persisted
configuration unchanged. -/
theorem saveConfig_blocked_when_enforced (enterprise : ManagedConfig)
    (stored requested : Config)
    (hm : (getEffectiveConfig enterprise stored).isManaged = true)
    (he : (getEffectiveConfig enterprise stored).enforceSettings = true) :
    saveConfig enterprise stored requested = (false, stored) := by
  simp only [saveConfig, hm, he]
  rfl

/-- An administered record that locks settings
(`enforceSettings = true`). -/
def managedLocked : ManagedConfig where
  tabLimit := some 10
  windowLimit := none
  allowUserConfig := some false
  enforceSettings := some true
  autoClose := none
  autoCloseWindows := none
  windowGracePeriod := none
  notifications := none

/-- Witness for C7: under `managedLocked` the effective configuration is
managed and enforcement-locked, and a save attempt fails without mutating
the stored record. -/
theorem saveConfig_blocked_witness :
    (getEffectiveConfig managedLocked DEFAULT_CONFIG).isManaged = true ∧
    (getEffectiveConfig managedLocked DEFAULT_CONFIG).enforceSettings = true ∧
    saveConfig managedLocked DEFAULT_CONFIG
      { DEFAULT_CONFIG with tabLimit := 99 } = (false, DEFAULT_CONFIG) :=
  ⟨by decide, by decide,
    saveConfig_blocked_when_enforced managedLocked DEFAULT_CONFIG
      { DEFAULT_CONFIG with tabLimit := 99 } (by decide) (by decide)⟩

/-- C8 counterexample: when the timer fires with the extension disabled, the
callback closes nothing but also does not remove the tracking entries,
contradicting the claim that every non-closing invocation removes them. -/
theorem grace_callback_disabled_keeps_tracking :
    closeSpecificWindowAfterGrace { DEFAULT_CONFIG with enabled := false }
      wins4 4 = (none, false) := by decide

/-- C8 amended: when the grace-period timer fires while the extension is
enabled and window auto-close is on, the callback closes the tracked window
only if it still exists as a normal window, the normal-window count still
exceeds `windowLimit`, and the window is not focused, and in every such
invocation it removes the tracking entries; when disabled (or window
auto-close is off) it returns immediately, neither closing nor removing
tracking. -/
theorem grace_callback_guarded (config : Config) (allWindows : List Window)
    (tid : Nat) :
    (∀ w, (closeSpecificWindowAfterGrace config allWindows tid).1 = some w →
        config.enabled = true ∧ config.autoCloseWindows = true ∧
        w ∈ allWindows ∧ w.id = tid ∧ w.wtype = WinType.normal ∧
        w.focused = false ∧
        config.windowLimit
          < (allWindows.filter (fun x => x.wtype == WinType.normal)).length) ∧
    (config.enabled = true → config.autoCloseWindows = true →
        (closeSpecificWindowAfterGrace config allWindows tid).2 = true) ∧
    ((!config.enabled || !config.autoCloseWindows) = true →
        closeSpecificWindowAfterGrace config allWindows tid = (none, false)) := by
  refine ⟨fun w hclose => grace_close_characterized hclose, ?_, ?_⟩
  · intro he ha
    simp only [closeSpecificWindowAfterGrace, he, ha]
    split
    · rename_i hx
      simp at hx
    · split
      · rfl
      · split
        · rfl
        · split
          · rfl
          · rfl
  · intro hguard
    simp [closeSpecificWindowAfterGrace, hguard]

/-- Witness for C8 amended: the four-window scenario exercises the closing
branch, the tracking-removal conjunct, and the disabled early return. -/
theorem grace_callback_guarded_witness :
    ((mkWin 4 false).focused = false ∧ (mkWin 4 false).id = 4) ∧
    (closeSpecificWindowAfterGrace DEFAULT_CONFIG wins4 4).2 = true ∧
    closeSpecificWindowAfterGrace { DEFAULT_CONFIG with enabled := false }
      wins4 4 = (none, false) :=
  ⟨⟨((grace_callback_guarded DEFAULT_CONFIG wins4 4).1 (mkWin 4 false)
      (by decide)).2.2.2.2.2.1, rfl⟩,
   (grace_callback_guarded DEFAULT_CONFIG wins4 4).2.1 rfl rfl,
   (grace_callback_guarded { DEFAULT_CONFIG with enabled := false }
      wins4 4).2.2 rfl⟩

/-- C9: the `closeWindowConfirmed` handler ignores the `confirmed` flag
entirely: its outcome is identical for any two flag values, and whenever the
target window exists it is removed; in particular
`closeWindowConfirmed (windowId 42, confirmed false)` still closes
window 42. -/
theorem close_confirmed_ignores_flag :
    (∀ (allWindows : List Window) (windowId : Nat) (c d : Bool),
        handleWindowCloseConfirmation allWindows windowId c
          = handleWindowCloseConfirmation allWindows windowId d) ∧
    (∀ (allWindows : List Window) (windowId : Nat) (c : Bool) (w : Window),
        w ∈ allWindows → w.id = windowId →
        ∃ w2, handleWindowCloseConfirmation allWindows windowId c = some w2 ∧
          w2.id = windowId) ∧
    handleWindowCloseConfirmation [mkWin 42 true] 42 false
      = some (mkWin 42 true) := by
  refine ⟨fun _ _ _ _ => rfl, ?_, by decide⟩
  intro allWindows windowId c w hmem hid
  have hsome : (allWindows.find? (fun x => x.id == windowId)).isSome := by
    rw [List.find?_isSome]
    exact ⟨w, hmem, beq_iff_eq.mpr hid⟩
  obtain ⟨w2, hw2⟩ := Option.isSome_iff_exists.mp hsome
  refine ⟨w2, hw2, ?_⟩
  have := List.find?_some hw2
  simpa using this

/-- Witness for C9: the spec's window-42 scenario. -/
theorem close_confirmed_witness :
    mkWin 42 true ∈ [mkWin 42 true] ∧
    ∃ w2, handleWindowCloseConfirmation [mkWin 42 true] 42 false = some w2 ∧
      w2.id = 42 :=
  ⟨by decide,
    close_confirmed_ignores_flag.2.1 [mkWin 42 true] 42 false (mkWin 42 true)
      (by decide) rfl⟩

/-- C10: two stored records that differ only in the persisted `adminRole`
field yield identical `getConfig` results, and the resulting `adminRole` is
always the built-in default `false` — the persisted value never influences
the effective configuration. -/
theorem adminRole_not_influential :
    (∀ (stored : StoredSync) (a b : Option Bool),
        getConfig { stored with adminRole := a }
          = getConfig { stored with adminRole := b }) ∧
    ∀ stored : StoredSync, (getConfig stored).adminRole = false :=
  ⟨fun _ _ _ => rfl, fun _ => rfl⟩
